import Mathlib

/-!
# Verification of the live innings scoring engine

Shallow embedding of `updateInnings` from
`src/api/controllers/Admin/matchController.js` (PATCH .../innings/:inningsId/ball),
together with the document shapes it manipulates
(`src/db/model/Match.js`, the nested-`batting` Status schema the controller
reads and writes).

Modelling conventions:
* MongoDB ObjectIds are `Nat`.  A `Status` record is keyed by its player id:
  the store holds the records for one `(match, innings_number)` pair, where the
  unique index `(match_id, innings_number, player_id)` makes player ids a key.
* JS numbers are `Int` (ball counts, which only ever start at 0 and get `+= 1`,
  are `Nat`); the `overs` display value is `ℚ`.
* The whole call runs in one MongoDB transaction that is aborted on every
  error path, so the embedding is a pure function
  `Req → EngineState → Except Err EngineState`: an `Except.error` result is a
  rejected call with no persisted mutation.
* `bulkWrite` update documents written without update operators
  (`update: { 'batting.stricking_role': newRole }`) are modelled with $set
  semantics: the targeted field is replaced by the given value.  Operations are
  applied in list order, as MongoDB ordered bulk writes are.
* In-memory mongoose documents (the populated `current_batsmen`, the result of
  `Status.findOne`) are snapshots: queued bulk operations do not update them.
  The embedding therefore reads the batsman documents once and threads the
  snapshots, exactly as the controller does.
* `Status.create([{...}], { session })` is modelled as creating (and yielding)
  the single record described; timestamps come from a `now : Nat` field of the
  request.
-/

namespace Acethletics

/-- JS truthiness of an optional ObjectId-valued field: ObjectId strings are
always truthy, absent is falsy. -/
def truthyId : Option Nat → Bool
  | none => false
  | some _ => true

/-- JS truthiness of an optional number: absent and `0` are falsy. -/
def truthyNum : Option Int → Bool
  | none => false
  | some v => v != 0

/-- JS truthiness of an optional string: absent and the empty string are falsy. -/
def truthyStr : Option String → Bool
  | none => false
  | some s => s != ""

/-- JS `a || b` for an optional string with a string fallback. -/
def jsOrStr (a : Option String) (b : String) : String :=
  if truthyStr a then a.getD b else b

/-- How JS template literals print an absent value. -/
def jsShowOptStr : Option String → String
  | none => "undefined"
  | some s => s

/-- A resolved ball-outcome descriptor, as `updateInnings` consumes it:
`{runs, extras, ball_counts, is_wicket, maidens, description, ...}`.
`extras := 0` models an absent `extras` field, which the code only ever uses
through `ballOutcome.extras || 0` on the sum paths; the four named-bucket
`switch` arms are reached only for the catalog codes, whose `extras` is set. -/
structure BallOutcome where
  runs : Int
  extras : Int := 0
  ball_counts : Bool := false
  is_wicket : Bool := false
  maidens : Bool := false
  description : Option String := none
  customDescription : Option String := none
  additionalCommentary : Option String := none
deriving Repr, DecidableEq

/-- Modelled from the spec: the static outcome catalog
`src/constant/ballOutcomes.js` is imported by the controller but the file
itself is not in the source tree.  Per spec §4.1 it maps the codes
run, four, six, wide, noball, bye, leg_bye, wicket to canonical effect
descriptors `{runs, extras, counts_as_ball, is_wicket}`; wides and no-balls
are one extra run and do not count as legal deliveries; byes and leg-byes are
extras off legal deliveries; `custom` outcomes are supplied by the caller and
have no catalog entry. -/
def ballOutcomes : String → Option BallOutcome
  | "run" => some { runs := 1, ball_counts := true }
  | "four" => some { runs := 4, ball_counts := true }
  | "six" => some { runs := 6, ball_counts := true }
  | "wide" => some { runs := 0, extras := 1 }
  | "noball" => some { runs := 0, extras := 1 }
  | "bye" => some { runs := 0, extras := 1, ball_counts := true }
  | "leg_bye" => some { runs := 0, extras := 1, ball_counts := true }
  | "wicket" => some { runs := 0, ball_counts := true, is_wicket := true }
  | _ => none

/-- The extras breakdown embedded in the innings score. -/
structure Extras where
  wides : Int := 0
  noBalls : Int := 0
  byes : Int := 0
  legByes : Int := 0
  penalty_runs : Int := 0
  total : Int := 0
deriving Repr, DecidableEq

/-- The score aggregate embedded in the innings document. -/
structure Score where
  runs : Int := 0
  wickets : Int := 0
  overs : ℚ := 0
  balls : Nat := 0
  extras : Extras := {}
  isDeclared : Bool := false
  isFollowOn : Bool := false
deriving Repr, DecidableEq

/-- Batting statistics of a `Status` record, the nested shape the controller
reads (`batting.stricking_role` etc.). `stricking_role` is 1 for striker,
2 for non-striker, 0 for out; `none` models null/undefined. -/
structure Batting where
  runs : Int := 0
  balls_faced : Int := 0
  fours : Int := 0
  sixes : Int := 0
  out_type : Option String := none
  bowler_when_out : Option Nat := none
  stricking_role : Option Int := none
deriving Repr, DecidableEq

/-- Bowling statistics of a `Status` record. -/
structure Bowling where
  runs_conceded : Int := 0
  overs_bowled : ℚ := 0
  maidens : Int := 0
  wickets : Int := 0
  wides : Int := 0
  no_balls : Int := 0
  extras_conceded : Int := 0
deriving Repr, DecidableEq

/-- Fielding statistics of a `Status` record. -/
structure Fielding where
  catches : Int := 0
  stumpings : Int := 0
deriving Repr, DecidableEq

/-- A per-(player, match, innings) `Status` record, keyed here by player id. -/
structure Status where
  player_id : Nat
  batting : Batting := {}
  bowling : Bowling := {}
  fielding : Fielding := {}
deriving Repr, DecidableEq

/-- A commentary entry `{over, ball, description, timestamp}`. -/
structure CommentaryEntry where
  over : Nat
  ball : Nat
  description : String
  timestamp : Nat
deriving Repr, DecidableEq

inductive InningsStatus where
  | ongoing
  | completed
deriving Repr, DecidableEq

inductive MatchStatus where
  | upcoming
  | in_progress
  | completed
  | cancelled
  | abandoned
deriving Repr, DecidableEq

/-- The JS value held by `match.winner`.  The Match schema types it as an
ObjectId, but the controller assigns it `match.batting_team_id` /
`match.bowling_team_id` (paths that do not exist on the Match schema, hence
`undefined`) and the string `'Tie'`. -/
inductive JsWinner where
  | jsNull
  | jsUndefined
  | team (t : Nat)
  | tie
deriving Repr, DecidableEq

/-- How a JS template literal prints the winner value. -/
def jsShowWinner : JsWinner → String
  | .jsNull => "null"
  | .jsUndefined => "undefined"
  | .team t => "P" ++ toString t
  | .tie => "Tie"

/-- The innings document (the fields `updateInnings` touches). -/
structure Innings where
  innings_number : Nat
  batting_team_id : Nat
  bowling_team_id : Nat
  batting_order : List Nat
  current_batsmen : List Nat
  current_bowler : Nat
  score : Score := {}
  commentary : List CommentaryEntry := []
  status : InningsStatus := .ongoing
  endTime : Option Nat := none
deriving Repr, DecidableEq

/-- The match document (the fields `updateInnings` touches), mirroring the
MatchSchema of `src/db/model/Match.js`: note that it has team_Aid/team_Bid but
no `batting_team_id`/`bowling_team_id` path — those live on the Innings
schema, so reading them off the match document yields `undefined`. -/
structure MatchDoc where
  team_Aid : Nat
  team_Bid : Nat
  overs : Nat
  status : MatchStatus := .in_progress
  target_runs : Option Int := none
  winner : JsWinner := .jsNull
  endTime : Option Nat := none
deriving Repr, DecidableEq

/-- Everything one `updateInnings` call reads and writes transactionally:
the innings, its match, and the Status store for this (match, innings). -/
structure EngineState where
  innings : Innings
  matchDoc : MatchDoc
  statuses : List Status
deriving Repr, DecidableEq

/-- The request body of PATCH .../ball (plus the clock used for timestamps). -/
structure Req where
  outcome : String
  bowler_id : Option Nat := none
  fielder_id : Option Nat := none
  dismissal_type : Option String := none
  next_batsman_id : Option Nat := none
  next_batsman_strike_role : Option Int := none
  customOutcome : Option BallOutcome := none
  now : Nat := 0
deriving Repr

/-- Rejection reasons: each `Except.error` is an `httpError` +
`session.abortTransaction()` exit of the controller (the two `...Null`
constructors are the uncaught TypeErrors on a null document reference, which
the outer catch turns into a 500 and an abort). -/
inductive Err where
  | nextBatsmanRequired
  | invalidStrikeRole
  | outcomeRequired
  | invalidOutcome
  | completedInnings
  | bowlerStatusNull
  | strikerNotFound
  | fielderStatusNull
  | notInBattingOrder
  | nextBatsmanRequiredLate
deriving Repr, DecidableEq

/-- `ballOutcomes[outcome] || customOutcome` (line 658). -/
def resolveOutcome (req : Req) : Option BallOutcome :=
  match ballOutcomes req.outcome with
  | some b => some b
  | none => req.customOutcome

/-- `Math.floor(balls / 6) + ((balls % 6) / 10)` (line 751). -/
def oversValue (balls : Nat) : ℚ :=
  (balls / 6 : ℕ) + ((balls % 6 : ℕ) : ℚ) / 10

/-- Lines 727–752: fold one resolved outcome into the score aggregate. -/
def applyScore (sc : Score) (o : BallOutcome) (code : String) : Score :=
  let sc := { sc with
    runs := sc.runs + o.runs + o.extras
    extras := { sc.extras with total := sc.extras.total + o.extras } }
  let ex := sc.extras
  let ex :=
    if code = "wide" then { ex with wides := ex.wides + o.extras }
    else if code = "noball" then { ex with noBalls := ex.noBalls + o.extras }
    else if code = "bye" then { ex with byes := ex.byes + o.extras }
    else if code = "leg_bye" then { ex with legByes := ex.legByes + o.extras }
    else ex
  let sc := { sc with extras := ex }
  if o.ball_counts then
    { sc with balls := sc.balls + 1, overs := oversValue (sc.balls + 1) }
  else sc

/-- `Status.findOne({player_id, match_id, innings_number})` over the store. -/
def findStatus (store : List Status) (pid : Nat) : Option Status :=
  store.find? (fun st => st.player_id == pid)

/-- One queued bulk operation: the target record's id and the `$inc`/`$set`
effect, with the numbers already evaluated at push time (as in the JS). -/
abbrev StatusOp := Nat × (Status → Status)

/-- `Status.bulkWrite(bulkOps, { session })`: ordered application. -/
def applyOps (store : List Status) (ops : List StatusOp) : List Status :=
  ops.foldl
    (fun st op => st.map (fun r => if r.player_id = op.1 then op.2 r else r))
    store

/-- Lines 786–804: the bowler's `$inc` document. -/
def bowlerInc (o : BallOutcome) (code : String) : Status → Status :=
  fun st => { st with bowling := { st.bowling with
    runs_conceded := st.bowling.runs_conceded + o.runs + o.extras
    overs_bowled := st.bowling.overs_bowled + (if o.ball_counts then (1 : ℚ) / 6 else 0)
    wickets := st.bowling.wickets + (if o.is_wicket then 1 else 0)
    wides := st.bowling.wides + (if code = "wide" then 1 else 0)
    no_balls := st.bowling.no_balls + (if code = "noball" then 1 else 0)
    extras_conceded := st.bowling.extras_conceded + o.extras
    maidens := st.bowling.maidens + (if o.maidens then 1 else 0) } }

/-- Lines 816–833: the striker's `$inc` document. -/
def strikerInc (o : BallOutcome) : Status → Status :=
  fun st => { st with batting := { st.batting with
    runs := st.batting.runs + o.runs
    balls_faced := st.batting.balls_faced + (if o.ball_counts then 1 else 0)
    fours := st.batting.fours + (if o.runs = 4 then 1 else 0)
    sixes := st.batting.sixes + (if o.runs = 6 then 1 else 0) } }

/-- A `$set` of `batting.stricking_role` to a concrete role. -/
def setRole (v : Int) : Status → Status :=
  fun st => { st with batting := { st.batting with stricking_role := some v } }

/-- A `$set` of `batting.stricking_role` to the raw request value
(line 996, where `next_batsman_strike_role` is stored as given). -/
def setRoleOpt (v : Option Int) : Status → Status :=
  fun st => { st with batting := { st.batting with stricking_role := v } }

/-- Lines 886–897: the dismissed striker's `$set` document. -/
def setOut (outType : String) (bowlerId : Option Nat) : Status → Status :=
  fun st => { st with batting := { st.batting with
    out_type := some outType
    bowler_when_out := bowlerId
    stricking_role := some 0 } }

/-- Line 1028 / 1041: `stricking_role === 1 ? 2 : 1` on the in-memory value. -/
def flipRole (r : Option Int) : Int :=
  if r = some 1 then 2 else 1

/-- One strike-rotation pass: for every in-memory batsman document, queue a
`$set` of its role to the flip of its in-memory (stale) role. -/
def rotateOps (batsmen : List Status) : List StatusOp :=
  batsmen.map (fun b => (b.player_id, setRole (flipRole b.batting.stricking_role)))

/-- The populated `player_id.name` of a Status document fetched through the
`current_batsmen` populate; the name directory is modelled as a function of
the player id. -/
def playerName (pid : Nat) : String := "P" ++ toString pid

/-- Lines 836–871: build the commentary description.  `bowlerStatus` comes
from a `Status.findOne` that does not populate `player_id`, so
`bowlerStatus.player_id.name` interpolates as "undefined". -/
def mkDescription (req : Req) (o : BallOutcome) (strikerPid : Nat) : String :=
  let base :=
    if truthyStr o.description then o.description.getD "" else
    if req.outcome = "run" then
      playerName strikerPid ++ " scored " ++ toString o.runs ++ " run(s)."
    else if req.outcome = "four" then playerName strikerPid ++ " hit a four!"
    else if req.outcome = "six" then playerName strikerPid ++ " hit a six!"
    else if req.outcome = "wide" then "Wide ball bowled by undefined."
    else if req.outcome = "noball" then "No ball bowled by undefined."
    else if req.outcome = "wicket" then
      playerName strikerPid ++ " is out (" ++ jsShowOptStr req.dismissal_type ++
        ") bowled by undefined."
    else if req.outcome = "custom" then jsOrStr o.customDescription "Custom outcome occurred."
    else "Ball outcome: " ++ req.outcome ++ "."
  if truthyStr o.additionalCommentary then base ++ " " ++ o.additionalCommentary.getD ""
  else base

/-- A commentary entry at a given ball count: `over = floor(balls/6)+1`,
`ball = balls % 6 || 6`. -/
def entryAt (balls : Nat) (desc : String) (now : Nat) : CommentaryEntry :=
  { over := balls / 6 + 1
    ball := if balls % 6 = 0 then 6 else balls % 6
    description := desc
    timestamp := now }

/-- The working context threaded through the branches of one call: the
documents being mutated in the session plus the queued bulk operations. -/
structure Mid where
  innings : Innings
  matchDoc : MatchDoc
  statuses : List Status
  ops : List StatusOp
  now : Nat

/-- Line 908: the Status created for a first-time fielder. -/
def newFielderStatus (fid : Nat) (dt : String) : Status :=
  { player_id := fid
    fielding := { catches := if dt = "caught" then 1 else 0
                  stumpings := if dt = "stumped" then 1 else 0 } }

/-- Lines 919–924 / 936–942: the fielder `$inc` ops for one dismissal type. -/
def fielderIncOps (fid : Nat) (dt : String) : List StatusOp :=
  if dt = "caught" then
    [(fid, fun st => { st with fielding := { st.fielding with catches := st.fielding.catches + 1 } })]
  else if dt = "stumped" then
    [(fid, fun st => { st with fielding := { st.fielding with stumpings := st.fielding.stumpings + 1 } })]
  else []

/-- Lines 900–952.  When the fielder has a Status record the `$inc` document
is queued twice (once by the `else` branch at 926–933 and once by the
unconditional block at 944–951); when it does not, the unconditional block
dereferences the null `fielderStatus` for caught/stumped dismissals, which
throws and aborts the transaction. -/
def fielderStage (req : Req) (mid : Mid) : Except Err Mid :=
  if truthyId req.fielder_id ∧ truthyStr req.dismissal_type then
    let fid := req.fielder_id.getD 0
    let dt := req.dismissal_type.getD ""
    match findStatus mid.statuses fid with
    | none =>
      let mid := { mid with statuses := mid.statuses ++ [newFielderStatus fid dt] }
      if dt = "caught" ∨ dt = "stumped" then .error .fielderStatusNull else .ok mid
    | some _ => .ok { mid with ops := mid.ops ++ fielderIncOps fid dt ++ fielderIncOps fid dt }
  else .ok mid

/-- Line 978: the Status created for a first-time incoming batsman, with the
raw request strike role. -/
def newBatsmanStatus (pid : Nat) (role : Option Int) : Status :=
  { player_id := pid
    batting := { stricking_role := role }
    fielding := { catches := 0, stumpings := 0 } }

/-- Lines 1002–1017: append the incoming batsman to `current_batsmen`, then
find the first in-memory document whose (stale) role is non-striker and, if
its role differs from the complement of the requested role, queue a `$set`. -/
def finishWicket (req : Req) (snap : Status) (remaining : List Status) (mid : Mid) : Mid :=
  let mid := { mid with innings := { mid.innings with
    current_batsmen := mid.innings.current_batsmen ++ [snap.player_id] } }
  let docs := remaining ++ [snap]
  match docs.find? (fun b => b.batting.stricking_role == some 2) with
  | some ens =>
    let desired : Int := if req.next_batsman_strike_role = some 1 then 2 else 1
    if ens.batting.stricking_role ≠ some desired then
      { mid with ops := mid.ops ++ [(ens.player_id, setRole desired)] }
    else mid
  | none => mid

/-- Lines 882–1023: the wicket branch.  `batsmen` are the in-memory populated
documents of `current_batsmen`, `striker` the one found with role 1. -/
def wicketStage (req : Req) (striker : Status) (batsmen : List Status) (mid : Mid) :
    Except Err Mid :=
  let mid := { mid with innings := { mid.innings with
    score := { mid.innings.score with wickets := mid.innings.score.wickets + 1 } } }
  let mid := { mid with ops :=
    mid.ops ++ [(striker.player_id, setOut (jsOrStr req.dismissal_type "Out") req.bowler_id)] }
  match fielderStage req mid with
  | .error e => .error e
  | .ok mid =>
    let remaining := batsmen.filter (fun b => b.player_id ≠ striker.player_id)
    let mid := { mid with innings := { mid.innings with
      current_batsmen := mid.innings.current_batsmen.filter (fun pid => pid ≠ striker.player_id) } }
    match req.next_batsman_id with
    | some nextId =>
      if nextId ∈ mid.innings.batting_order then
        match findStatus mid.statuses nextId with
        | none =>
          let snap := newBatsmanStatus nextId req.next_batsman_strike_role
          .ok (finishWicket req snap remaining { mid with statuses := mid.statuses ++ [snap] })
        | some snap =>
          let mid :=
            if snap.batting.stricking_role ≠ req.next_batsman_strike_role then
              { mid with ops := mid.ops ++ [(nextId, setRoleOpt req.next_batsman_strike_role)] }
            else mid
          .ok (finishWicket req snap remaining mid)
      else .error .notInBattingOrder
    | none => .error .nextBatsmanRequiredLate

/-- Line 1065: `${match.batting_team_id} has reached the target...` — the
match document has no `batting_team_id` path, so it prints "undefined". -/
def targetReachedDesc : String := "undefined has reached the target and wins the match!"

/-- Lines 1024–1071: the non-wicket branch.  Both rotation rules queue a
`$set` of each batsman's role to the flip of its in-memory value (which the
first rule's queued op has not changed), and the over-boundary block also
checks the innings-2 target. -/
def rotateStage (o : BallOutcome) (batsmen : List Status) (mid : Mid) : Mid :=
  let mid :=
    if o.ball_counts ∧ o.runs % 2 ≠ 0 then { mid with ops := mid.ops ++ rotateOps batsmen }
    else mid
  if o.ball_counts ∧ mid.innings.score.balls % 6 = 0 then
    let mid := { mid with ops := mid.ops ++ rotateOps batsmen }
    if mid.innings.innings_number = 2 ∧ truthyNum mid.matchDoc.target_runs then
      if mid.innings.score.runs ≥ mid.matchDoc.target_runs.getD 0 then
        let inn2 : Innings := { mid.innings with
          status := .completed
          endTime := some mid.now
          commentary := mid.innings.commentary ++
            [entryAt mid.innings.score.balls targetReachedDesc mid.now] }
        let m2 : MatchDoc := { mid.matchDoc with
          winner := .jsUndefined
          status := .completed
          endTime := some mid.now }
        { mid with innings := inn2, matchDoc := m2 }
      else mid
    else mid
  else mid

/-- Line 1090/1137 commentary text. -/
def target1Desc (t : Int) : String :=
  "Innings 1 completed. Target for Innings 2 is " ++ toString t ++ " runs."

/-- Line 1111/1158 commentary text. -/
def tieDesc (r : Int) : String :=
  "The match is tied! Both teams have scored " ++ toString r ++ " runs."

/-- Line 1118/1165 commentary text. -/
def winsDesc (w : JsWinner) : String := jsShowWinner w ++ " wins the match!"

/-- The shared body of the two completion blocks (1079–1123 and 1126–1170):
complete the innings; for innings 1 set the target and announce it; for
innings 2 pick the winner (`match.batting_team_id`/`bowling_team_id` are not
Match paths, hence `undefined`) and announce the result. -/
def completeBody (totalBalls : Nat) (mid : Mid) : Mid :=
  let mid := { mid with innings :=
    { mid.innings with status := .completed, endTime := some mid.now } }
  if mid.innings.innings_number = 1 then
    let tgt := mid.innings.score.runs + 1
    { mid with
      matchDoc := { mid.matchDoc with target_runs := some tgt }
      innings := { mid.innings with commentary :=
        mid.innings.commentary ++ [entryAt totalBalls (target1Desc tgt) mid.now] } }
  else if mid.innings.innings_number = 2 then
    let t := mid.matchDoc.target_runs.getD 0
    let w : JsWinner :=
      if mid.innings.score.runs > t then .jsUndefined
      else if mid.innings.score.runs < t then .jsUndefined
      else .tie
    let mid := { mid with matchDoc :=
      { mid.matchDoc with winner := w, status := .completed, endTime := some mid.now } }
    let d := if w = .tie then tieDesc mid.innings.score.runs else winsDesc w
    { mid with innings := { mid.innings with commentary :=
      mid.innings.commentary ++ [entryAt totalBalls d mid.now] } }
  else mid

/-- Lines 1073–1192: the completion evaluator, run only when the outcome
counted as a ball.  The overs-exhausted and all-out blocks are two
consecutive `if`s (not `else if`), each with its own copy of the narrative;
the target check runs third. -/
def completionStage (o : BallOutcome) (mid : Mid) : Mid :=
  if o.ball_counts then
    let totalBalls := mid.innings.score.balls
    let maxBalls := mid.matchDoc.overs * 6
    let mid := if totalBalls ≥ maxBalls then completeBody totalBalls mid else mid
    let mid := if mid.innings.score.wickets ≥ 10 then completeBody totalBalls mid else mid
    if mid.innings.innings_number = 2 ∧ truthyNum mid.matchDoc.target_runs then
      if mid.innings.score.runs ≥ mid.matchDoc.target_runs.getD 0 then
        let inn2 : Innings := { mid.innings with
          status := .completed
          endTime := some mid.now
          commentary := mid.innings.commentary ++
            [entryAt totalBalls targetReachedDesc mid.now] }
        let m2 : MatchDoc := { mid.matchDoc with
          winner := .jsUndefined
          status := .completed
          endTime := some mid.now }
        { mid with innings := inn2, matchDoc := m2 }
      else mid
    else mid
  else mid

/-- The `pre('save')` hook of the Innings schema: keep only the last 20
commentary entries. -/
def capCommentary (l : List CommentaryEntry) : List CommentaryEntry :=
  if l.length > 20 then l.drop (l.length - 20) else l

/-- Lines 1194–1205: run the queued bulk operations and save the innings
(the commentary cap fires in the pre-save hook); the transaction commits. -/
def commit (mid : Mid) : EngineState :=
  { innings := { mid.innings with commentary := capCommentary mid.innings.commentary }
    matchDoc := mid.matchDoc
    statuses := applyOps mid.statuses mid.ops }

/-- Line 760: `bowler_id ? bowler_id : innings.current_bowler.player_id`. -/
def bowlerPidOf (req : Req) (s : EngineState) : Nat :=
  match req.bowler_id with
  | some b => b
  | none => s.innings.current_bowler

/-- The populated documents of the active-batsmen list. -/
def activeDocs (s : EngineState) : List Status :=
  s.innings.current_batsmen.filterMap (findStatus s.statuses)

/-- Line 807: the active batsman whose `batting.stricking_role` is 1. -/
def strikerOf (s : EngineState) : Option Status :=
  (activeDocs s).find? (fun b => b.batting.stricking_role == some 1)

/-- Lines 707–1205: the body of the call once the outcome is resolved and the
innings is known to be ongoing.  A missing bowler Status aborts: the
not-found branch (765–782) creates a replacement record but never rebinds
`bowlerStatus`, so the `$inc` push at line 801 dereferences null. -/
def applyBall (req : Req) (o : BallOutcome) (s : EngineState) : Except Err EngineState :=
  let score1 := applyScore s.innings.score o req.outcome
  let bowlerPid := bowlerPidOf req s
  match findStatus s.statuses bowlerPid with
  | none => .error .bowlerStatusNull
  | some _ =>
    let batsmen := activeDocs s
    match strikerOf s with
    | none => .error .strikerNotFound
    | some striker =>
      let ops : List StatusOp :=
        [(bowlerPid, bowlerInc o req.outcome), (striker.player_id, strikerInc o)]
      let entry := entryAt score1.balls (mkDescription req o striker.player_id) req.now
      let mid : Mid :=
        { innings := { s.innings with
            score := score1, commentary := s.innings.commentary ++ [entry] }
          matchDoc := s.matchDoc
          statuses := s.statuses
          ops := ops
          now := req.now }
      match (if o.is_wicket then wicketStage req striker batsmen mid
             else .ok (rotateStage o batsmen mid)) with
      | .error e => .error e
      | .ok mid2 => .ok (commit (completionStage o mid2))

/-- Line 644: a provided (truthy) strike role outside {1, 2}. -/
def invalidRoleVal : Option Int → Bool
  | none => false
  | some v => v != 0 && !(v == 1 || v == 2)

/-- Lines 621–1224: one "apply ball outcome" call as a pure transaction:
`Except.error` is a rejected call (httpError + abort), `Except.ok` the
committed new state. -/
def updateInnings (req : Req) (s : EngineState) : Except Err EngineState :=
  if req.outcome = "wicket" ∧
      (¬ truthyId req.next_batsman_id ∨ ¬ truthyNum req.next_batsman_strike_role) then
    .error .nextBatsmanRequired
  else if invalidRoleVal req.next_batsman_strike_role then .error .invalidStrikeRole
  else if req.outcome = "" then .error .outcomeRequired
  else
    match resolveOutcome req with
    | none => .error .invalidOutcome
    | some o =>
      if s.innings.status = .completed then .error .completedInnings
      else applyBall req o s

/-- A sequence of calls, each one feeding the committed state of the previous
one (the serial per-innings execution the transaction enforces). -/
def applySeq (reqs : List Req) (s : EngineState) : Except Err EngineState :=
  reqs.foldlM (fun st r => updateInnings r st) s

/-- Read a projection of the committed state of a call, `none` on rejection. -/
def postProj {α : Type} (f : EngineState → α) : Except Err EngineState → Option α
  | .ok s => some (f s)
  | .error _ => none

/-- The persisted striking roles of the active batsmen, in list order. -/
def activeRoles (s : EngineState) : List (Option Int) :=
  (activeDocs s).map (fun st => st.batting.stricking_role)

/-- The active-batsmen well-formedness the spec demands after a wicket:
exactly two active batsmen, one striker and one non-striker (in particular no
`out` role among them). -/
def wellFormedActiveB (s : EngineState) : Bool :=
  s.innings.current_batsmen.length == 2 &&
    (activeRoles s == [some 1, some 2] || activeRoles s == [some 2, some 1])

/-- The spec's extras invariant:
`extras.total = wides + noBalls + byes + legByes + penalty_runs`. -/
def extrasInvariantB (e : Extras) : Bool :=
  e.total == e.wides + e.noBalls + e.byes + e.legByes + e.penalty_runs

/-- Number of commentary entries carrying a given description. -/
def countDesc (l : List CommentaryEntry) (d : String) : Nat :=
  (l.filter (fun e => e.description == d)).length

/-- A two-batsman innings about to receive deliveries: players 1 (striker)
and 2 (non-striker) at the crease, player 3 bowling, all with existing
Status records, batting order `[1, 2]` as `startInnings` creates it. -/
def batsman1 : Status := { player_id := 1, batting := { stricking_role := some 1 } }

def batsman2 : Status := { player_id := 2, batting := { stricking_role := some 2 } }

def bowler3 : Status := { player_id := 3 }

def baseInnings (n : Nat) : Innings :=
  { innings_number := n
    batting_team_id := 70
    bowling_team_id := 71
    batting_order := [1, 2]
    current_batsmen := [1, 2]
    current_bowler := 3 }

def baseState (n : Nat) (oversLimit : Nat) : EngineState :=
  { innings := baseInnings n
    matchDoc := { team_Aid := 70, team_Bid := 71, overs := oversLimit }
    statuses := [batsman1, batsman2, bowler3] }

/-- A catalog "run" delivery (the spec's "single run" legal delivery). -/
def runReq : Req := { outcome := "run" }

/-- An over-ending odd-run legal delivery applied to a fresh two-batsman
innings with five balls already bowled: both strike-rotation triggers fire. -/
def c1PreState : EngineState :=
  { baseState 1 100 with innings := { baseInnings 1 with score := { balls := 5 } } }

def c1Req : Req :=
  { outcome := "single_custom"
    customOutcome := some { runs := 1, ball_counts := true } }

/-- The strike-rotation family: a two-batsman innings-1 state with an
arbitrary ball count (overs limit high enough that it stays irrelevant for
the roles) receiving a legal non-wicket delivery of arbitrary runs. -/
def rotState (balls : Nat) : EngineState :=
  { baseState 1 1000000 with innings := { baseInnings 1 with score := { balls := balls } } }

def rotReq (runs : Int) : Req :=
  { outcome := "custom_runs"
    customOutcome := some { runs := runs, ball_counts := true } }

/-- A caller-supplied custom outcome whose code is none of wide/noball/bye/
leg_bye but which carries one extra run. -/
def c3Req : Req :=
  { outcome := "penalty"
    customOutcome := some { runs := 0, extras := 1 } }

/-- A (custom) wicket delivery whose incoming batsman is the dismissed
striker himself, re-admitted as striker. -/
def c4Req : Req :=
  { outcome := "wicket_custom"
    dismissal_type := some "bowled"
    next_batsman_id := some 1
    next_batsman_strike_role := some 1
    customOutcome := some { runs := 0, ball_counts := true, is_wicket := true } }

/-- Like `baseState` but with a third, not-yet-active player (id 4) in the
batting order, available as an incoming batsman. -/
def c4GoodState : EngineState :=
  { baseState 1 100 with innings := { baseInnings 1 with batting_order := [1, 2, 4] } }

/-- A wicket delivery bringing in the fresh player 4 with a chosen role. -/
def c4FreshReq (r : Int) : Req :=
  { outcome := "wicket_custom"
    dismissal_type := some "bowled"
    next_batsman_id := some 4
    next_batsman_strike_role := some r
    customOutcome := some { runs := 0, ball_counts := true, is_wicket := true } }

/-- A custom wicket outcome that does not count as a ball (e.g. a retirement
or a run-out off a wide), recycling a batting-order member as the incoming
batsman. -/
def c5Req (nid : Nat) : Req :=
  { outcome := "retire_custom"
    next_batsman_id := some nid
    next_batsman_strike_role := some 2
    customOutcome := some { runs := 0, ball_counts := false, is_wicket := true } }

/-- k such wickets in a row, alternating the recycled incoming batsman. -/
def c5Reqs (k : Nat) : List Req :=
  (List.range k).map (fun i => c5Req (if i % 2 = 0 then 1 else 2))

/-- A completed innings (immutability witness state). -/
def completedState : EngineState :=
  { baseState 1 2 with innings := { baseInnings 1 with status := .completed } }

/-- A catalog wicket submitted without a next batsman. -/
def c6Req : Req := { outcome := "wicket" }

/-- A custom wicket submitted without a next batsman. -/
def c6CustomReq : Req :=
  { outcome := "runout_custom"
    dismissal_type := some "run_out"
    customOutcome := some { runs := 0, ball_counts := true, is_wicket := true } }

/-- Scenario B: innings 2 chasing 120 at 115/3 after 13 balls (mid-over). -/
def c8State : EngineState :=
  { baseState 2 20 with
    innings := { baseInnings 2 with score := { runs := 115, balls := 13, wickets := 3 } }
    matchDoc := { team_Aid := 70, team_Bid := 71, overs := 20, target_runs := some 120 } }

/-- A legal six as a caller-supplied outcome. -/
def c8Req : Req :=
  { outcome := "six_custom"
    now := 5
    customOutcome := some { runs := 6, ball_counts := true } }

/-- A legal wicket delivery with a fixed commentary line. -/
def c9Req : Req :=
  { outcome := "w_custom"
    dismissal_type := some "bowled"
    next_batsman_id := some 1
    next_batsman_strike_role := some 2
    now := 7
    customOutcome := some
      { runs := 0, ball_counts := true, is_wicket := true, description := some "W." } }

/-- Innings 1 of a 2-over match at 42/9 after 11 balls with a given prior
commentary log: the next legal wicket exhausts the overs and the wickets on
the same ball. -/
def c9State (pre : List CommentaryEntry) : EngineState :=
  { baseState 1 2 with innings := { baseInnings 1 with
      score := { runs := 42, balls := 11, wickets := 9 }
      commentary := pre } }

/-- Innings 2 (target 120) of a 2-over match at 100/9 after 11 balls with a
given prior commentary log. -/
def c9State2 (pre : List CommentaryEntry) : EngineState :=
  { baseState 2 2 with
    innings := { baseInnings 2 with
      score := { runs := 100, balls := 11, wickets := 9 }
      commentary := pre }
    matchDoc := { team_Aid := 70, team_Bid := 71, overs := 2, target_runs := some 120 } }

/-- Operations that never change the id of the record they rewrite (every
`$inc`/`$set` document of the controller qualifies). -/
def PidPreserving (ops : List StatusOp) : Prop :=
  ∀ op ∈ ops, ∀ r : Status, (op.2 r).player_id = r.player_id

/-- The catalog outcome resolved for a plain run delivery: one run, legal. -/
def runOutcome : BallOutcome := { runs := 1, ball_counts := true }

/-- A wide delivery request (catalog: one extra, not a legal ball). -/
def wideReq : Req := { outcome := "wide" }

/-- Whether an engine call aborted: the transaction rolled back and nothing persisted. -/
def rejected : Except Err EngineState → Bool
  | .ok _ => false
  | .error _ => true

/-- Replay of an ordered bulkWrite op list onto a single player document: each op applies
exactly when its filter pid matches the document being folded. -/
def pidFold (ops : List StatusOp) (r : Status) : Status :=
  ops.foldl (fun acc op => if acc.player_id = op.1 then op.2 acc else acc) r

/-- Every op in the list leaves the batting counters (runs, balls_faced, fours, sixes)
of any document it touches unchanged. -/
def CountersPreserving (ops : List StatusOp) : Prop :=
  ∀ op ∈ ops, ∀ r : Status,
    (op.2 r).batting.runs = r.batting.runs ∧
    (op.2 r).batting.balls_faced = r.batting.balls_faced ∧
    (op.2 r).batting.fours = r.batting.fours ∧
    (op.2 r).batting.sixes = r.batting.sixes

/-- Every op in the list either targets a different pid or leaves the striking role
unchanged. -/
def RoleSafeFor (pid : Nat) (ops : List StatusOp) : Prop :=
  ∀ op ∈ ops, op.1 ≠ pid ∨
    ∀ x : Status, (op.2 x).batting.stricking_role = x.batting.stricking_role

end Acethletics

namespace Acethletics

theorem applyScore_runs (sc : Score) (o : BallOutcome) (c : String) :
    (applyScore sc o c).runs = sc.runs + o.runs + o.extras := by
  simp only [applyScore]
  split_ifs <;> rfl

theorem applyScore_wickets (sc : Score) (o : BallOutcome) (c : String) :
    (applyScore sc o c).wickets = sc.wickets := by
  simp only [applyScore]
  split_ifs <;> rfl

theorem applyScore_balls (sc : Score) (o : BallOutcome) (c : String) :
    (applyScore sc o c).balls = if o.ball_counts then sc.balls + 1 else sc.balls := by
  simp only [applyScore]
  split_ifs <;> rfl

theorem applyScore_overs (sc : Score) (o : BallOutcome) (c : String) :
    (applyScore sc o c).overs = if o.ball_counts then oversValue (sc.balls + 1) else sc.overs := by
  simp only [applyScore]
  split_ifs <;> rfl

theorem applyScore_total (sc : Score) (o : BallOutcome) (c : String) :
    (applyScore sc o c).extras.total = sc.extras.total + o.extras := by
  simp only [applyScore]
  split_ifs <;> rfl

theorem rotateStage_score (o : BallOutcome) (b : List Status) (mid : Mid) :
    (rotateStage o b mid).innings.score = mid.innings.score := by
  simp only [rotateStage]
  split_ifs <;> rfl

theorem rotateStage_statuses (o : BallOutcome) (b : List Status) (mid : Mid) :
    (rotateStage o b mid).statuses = mid.statuses := by
  simp only [rotateStage]
  split_ifs <;> rfl

theorem rotateStage_current_batsmen (o : BallOutcome) (b : List Status) (mid : Mid) :
    (rotateStage o b mid).innings.current_batsmen = mid.innings.current_batsmen := by
  simp only [rotateStage]
  split_ifs <;> rfl

theorem rotateStage_ops (o : BallOutcome) (b : List Status) (mid : Mid) :
    (rotateStage o b mid).ops =
      (mid.ops ++ (if o.ball_counts ∧ o.runs % 2 ≠ 0 then rotateOps b else [])) ++
        (if o.ball_counts ∧ mid.innings.score.balls % 6 = 0 then rotateOps b else []) := by
  simp only [rotateStage]
  split_ifs <;> simp_all

theorem completeBody_score (t : Nat) (mid : Mid) :
    (completeBody t mid).innings.score = mid.innings.score := by
  simp only [completeBody]
  split_ifs <;> rfl

theorem completionStage_score (o : BallOutcome) (mid : Mid) :
    (completionStage o mid).innings.score = mid.innings.score := by
  simp only [completionStage]
  split_ifs <;> simp [completeBody_score]

theorem completeBody_statuses (t : Nat) (mid : Mid) :
    (completeBody t mid).statuses = mid.statuses := by
  simp only [completeBody]
  split_ifs <;> rfl

theorem completionStage_statuses (o : BallOutcome) (mid : Mid) :
    (completionStage o mid).statuses = mid.statuses := by
  simp only [completionStage]
  split_ifs <;> simp [completeBody_statuses]

theorem completeBody_ops (t : Nat) (mid : Mid) :
    (completeBody t mid).ops = mid.ops := by
  simp only [completeBody]
  split_ifs <;> rfl

theorem completionStage_ops (o : BallOutcome) (mid : Mid) :
    (completionStage o mid).ops = mid.ops := by
  simp only [completionStage]
  split_ifs <;> simp [completeBody_ops]

theorem completeBody_current_batsmen (t : Nat) (mid : Mid) :
    (completeBody t mid).innings.current_batsmen = mid.innings.current_batsmen := by
  simp only [completeBody]
  split_ifs <;> rfl

theorem completionStage_current_batsmen (o : BallOutcome) (mid : Mid) :
    (completionStage o mid).innings.current_batsmen = mid.innings.current_batsmen := by
  simp only [completionStage]
  split_ifs <;> simp [completeBody_current_batsmen]

theorem commit_score (mid : Mid) : (commit mid).innings.score = mid.innings.score := rfl

theorem commit_statuses (mid : Mid) : (commit mid).statuses = applyOps mid.statuses mid.ops := rfl

theorem commit_current_batsmen (mid : Mid) :
    (commit mid).innings.current_batsmen = mid.innings.current_batsmen := rfl

theorem fielderStage_ok_inv (req : Req) (mid mid' : Mid)
    (h : fielderStage req mid = .ok mid') :
    mid'.innings = mid.innings ∧ mid'.matchDoc = mid.matchDoc ∧ mid'.now = mid.now := by
  simp only [fielderStage] at h
  split at h
  · split at h
    · split at h
      · exact absurd h (by simp)
      · cases h
        exact ⟨rfl, rfl, rfl⟩
    · cases h
      exact ⟨rfl, rfl, rfl⟩
  · cases h
    exact ⟨rfl, rfl, rfl⟩

theorem finishWicket_score (req : Req) (snap : Status) (rem : List Status) (mid : Mid) :
    (finishWicket req snap rem mid).innings.score = mid.innings.score := by
  simp only [finishWicket]
  split
  · split_ifs <;> rfl
  · rfl

theorem finishWicket_now (req : Req) (snap : Status) (rem : List Status) (mid : Mid) :
    (finishWicket req snap rem mid).now = mid.now := by
  simp only [finishWicket]
  split
  · split_ifs <;> rfl
  · rfl

theorem wicketStage_ok_score (req : Req) (striker : Status) (batsmen : List Status)
    (mid mid' : Mid) (h : wicketStage req striker batsmen mid = .ok mid') :
    mid'.innings.score =
      { mid.innings.score with wickets := mid.innings.score.wickets + 1 } := by
  simp only [wicketStage] at h
  split at h
  · exact absurd h (by simp)
  · rename_i mid1 hf
    have hf1 := fielderStage_ok_inv _ _ _ hf
    split at h
    · split at h
      · split at h
        · cases h
          simp [finishWicket_score, hf1.1]
        · split at h <;> [skip; skip] <;> cases h <;> simp [finishWicket_score, hf1.1]
      · exact absurd h (by simp)
    · exact absurd h (by simp)

theorem updateInnings_ok_inv (req : Req) (s s' : EngineState)
    (h : updateInnings req s = .ok s') :
    ∃ o, resolveOutcome req = some o ∧ s.innings.status = .ongoing ∧
      applyBall req o s = .ok s' := by
  simp only [updateInnings] at h
  split at h
  · exact absurd h (by simp)
  · split at h
    · exact absurd h (by simp)
    · split at h
      · exact absurd h (by simp)
      · split at h
        · exact absurd h (by simp)
        · rename_i o ho
          split at h
          · exact absurd h (by simp)
          · rename_i hc
            refine ⟨o, ho, ?_, h⟩
            cases hs : s.innings.status
            · rfl
            · exact absurd hs hc

theorem applyBall_ok_score (req : Req) (o : BallOutcome) (s : EngineState)
    (s' : EngineState) (h : applyBall req o s = .ok s') :
    s'.innings.score =
      (if o.is_wicket then
        { applyScore s.innings.score o req.outcome with
          wickets := (applyScore s.innings.score o req.outcome).wickets + 1 }
       else applyScore s.innings.score o req.outcome) := by
  simp only [applyBall] at h
  split at h
  · exact absurd h (by simp)
  · split at h
    · exact absurd h (by simp)
    · rename_i striker hstr
      cases hw : o.is_wicket
      · simp only [hw, Bool.false_eq_true, if_false] at h
        cases h
        rw [commit_score, completionStage_score, rotateStage_score]
        simp [hw]
      · simp only [hw, if_true] at h
        split at h
        · exact absurd h (by simp)
        · rename_i mid2 hmid2
          cases h
          rw [commit_score, completionStage_score,
            wicketStage_ok_score _ _ _ _ _ hmid2]
          simp [hw]

/-- C2: for every successfully applied outcome, innings runs grow by exactly
outcome.runs + outcome.extras; balls grow by exactly 1 when the outcome counts as a legal
delivery and are untouched otherwise; on a legal delivery overs is recomputed as
floor(balls/6) + (balls mod 6)/10, so 12 balls give 2 and 13 balls give 2.1. -/
theorem c2_score_accumulator (req : Req) (s s' : EngineState) (o : BallOutcome)
    (hok : updateInnings req s = .ok s') (ho : resolveOutcome req = some o) :
    s'.innings.score.runs = s.innings.score.runs + o.runs + o.extras ∧
    (o.ball_counts = true → s'.innings.score.balls = s.innings.score.balls + 1 ∧
      s'.innings.score.overs = oversValue (s.innings.score.balls + 1)) ∧
    (o.ball_counts = false → s'.innings.score.balls = s.innings.score.balls ∧
      s'.innings.score.overs = s.innings.score.overs) ∧
    oversValue 12 = 2 ∧ oversValue 13 = 2 + 1 / 10 := by
  obtain ⟨o', ho', _, hab⟩ := updateInnings_ok_inv _ _ _ hok
  rw [ho] at ho'
  cases ho'
  have hsc := applyBall_ok_score _ _ _ _ hab
  refine ⟨?_, ?_, ?_, ?_, ?_⟩
  · rw [hsc]; split_ifs <;> simp [applyScore_runs]
  · intro hb
    constructor
    · rw [hsc]; split_ifs <;> simp [applyScore_balls, hb]
    · rw [hsc]; split_ifs <;> simp [applyScore_overs, hb]
  · intro hb
    constructor
    · rw [hsc]; split_ifs <;> simp [applyScore_balls, hb]
    · rw [hsc]; split_ifs <;> simp [applyScore_overs, hb]
  · show ((12 / 6 : ℕ) : ℚ) + ((12 % 6 : ℕ) : ℚ) / 10 = 2
    norm_num
  · show ((13 / 6 : ℕ) : ℚ) + ((13 % 6 : ℕ) : ℚ) / 10 = 2 + 1 / 10
    norm_num

theorem c2_score_accumulator_witness :
    postProj (fun st => st.innings.score.balls) (updateInnings runReq (baseState 1 2)) = some 1 ∧
    postProj (fun st => st.innings.score.runs) (updateInnings runReq (baseState 1 2)) = some 1 := by
  obtain ⟨s', hs⟩ : ∃ s', updateInnings runReq (baseState 1 2) = Except.ok s' := ⟨_, rfl⟩
  have hc := c2_score_accumulator runReq (baseState 1 2) s' runOutcome hs (by decide)
  have hb := (hc.2.1 rfl).1
  have hr := hc.1
  rw [hs]
  simp only [postProj, Option.some.injEq]
  constructor
  · rw [hb]; rfl
  · rw [hr]; rfl

theorem applyScore_extras_inv (sc : Score) (o : BallOutcome) (c : String)
    (h : extrasInvariantB sc.extras = true)
    (hc : c = "wide" ∨ c = "noball" ∨ c = "bye" ∨ c = "leg_bye" ∨ o.extras = 0) :
    extrasInvariantB (applyScore sc o c).extras = true := by
  simp only [extrasInvariantB, beq_iff_eq] at h ⊢
  simp only [applyScore]
  split_ifs with h1 h2 h3 h4 h5 <;> simp_all <;> omega

/-- C3: amended. The extras invariant (total = wides + noBalls + byes + legByes + penalty)
is preserved by a successful call when the outcome code is one of wide, noball, bye, leg_bye,
or when the outcome carries zero extras. The original claim also covered custom codes with
nonzero extras, where the code adds to extras.total but skips every named bucket. -/
theorem c3_extras_invariant_amended (req : Req) (s s' : EngineState) (o : BallOutcome)
    (hok : updateInnings req s = .ok s') (ho : resolveOutcome req = some o)
    (hinv : extrasInvariantB s.innings.score.extras = true)
    (hcode : req.outcome = "wide" ∨ req.outcome = "noball" ∨ req.outcome = "bye" ∨
      req.outcome = "leg_bye" ∨ o.extras = 0) :
    extrasInvariantB s'.innings.score.extras = true := by
  obtain ⟨o', ho', _, hab⟩ := updateInnings_ok_inv _ _ _ hok
  rw [ho] at ho'
  cases ho'
  have hsc := applyBall_ok_score _ _ _ _ hab
  rw [hsc]
  split_ifs <;> simpa using applyScore_extras_inv _ _ _ hinv hcode

theorem fielderStage_error_eq (req : Req) (mid : Mid) (e : Err)
    (h : fielderStage req mid = .error e) : e = .fielderStatusNull := by
  simp only [fielderStage] at h
  split at h
  · split at h
    · split at h
      · cases h; rfl
      · exact absurd h (by simp)
    · exact absurd h (by simp)
  · exact absurd h (by simp)

theorem wicketStage_next_none (req : Req) (striker : Status) (batsmen : List Status)
    (mid : Mid) (hnext : req.next_batsman_id = none) :
    wicketStage req striker batsmen mid = .error .fielderStatusNull ∨
    wicketStage req striker batsmen mid = .error .nextBatsmanRequiredLate := by
  simp only [wicketStage, hnext]
  split
  · rename_i e hf
    exact .inl (by rw [fielderStage_error_eq _ _ _ hf])
  · exact .inr rfl

theorem fielderStage_none (req : Req) (mid : Mid) (h : req.fielder_id = none) :
    fielderStage req mid = .ok mid := by
  simp [fielderStage, h, truthyId]

theorem wicketStage_no_next (req : Req) (striker : Status) (batsmen : List Status)
    (mid : Mid) (hnext : req.next_batsman_id = none) (hf : req.fielder_id = none) :
    wicketStage req striker batsmen mid = .error .nextBatsmanRequiredLate := by
  simp only [wicketStage, fielderStage_none _ _ hf, hnext]

/-- C6: a wicket outcome submitted without next_batsman_id is rejected with a validation
error (the early check for the plain wicket code, or the late in-transaction check for a
custom wicket outcome), so the transaction aborts and no mutation is persisted. -/
theorem c6_wicket_without_next_rejected (req : Req) (s : EngineState) (o : BallOutcome)
    (bst striker : Status)
    (ho : resolveOutcome req = some o) (hw : o.is_wicket = true)
    (hnext : req.next_batsman_id = none)
    (hrole : invalidRoleVal req.next_batsman_strike_role = false)
    (hne : req.outcome ≠ "")
    (hongoing : s.innings.status = .ongoing)
    (hbowler : findStatus s.statuses (bowlerPidOf req s) = some bst)
    (hstriker : strikerOf s = some striker)
    (hfielder : req.fielder_id = none) :
    updateInnings req s = .error .nextBatsmanRequired ∨
    updateInnings req s = .error .nextBatsmanRequiredLate := by
  by_cases hout : req.outcome = "wicket"
  · left
    simp [updateInnings, hout, hnext, truthyId]
  · right
    simp only [updateInnings, hout, hrole, hne, ho, hongoing, false_and, Bool.false_eq_true,
      if_false, reduceCtorEq]
    simp [applyBall, hbowler, hstriker, hw, wicketStage_no_next _ _ _ _ hnext hfielder]

theorem completeBody_status (t : Nat) (mid : Mid) :
    (completeBody t mid).innings.status = .completed := by
  simp only [completeBody]
  split_ifs <;> rfl

theorem commit_status (mid : Mid) : (commit mid).innings.status = mid.innings.status := rfl

theorem completionStage_allout (o : BallOutcome) (mid : Mid)
    (hb : o.ball_counts = true) (hw : mid.innings.score.wickets ≥ 10) :
    (completionStage o mid).innings.status = .completed := by
  simp only [completionStage, hb, if_true]
  split_ifs <;> first | rfl | exact completeBody_status _ _

theorem applyBall_allout (req : Req) (o : BallOutcome) (s s' : EngineState)
    (h : applyBall req o s = .ok s')
    (hb : o.ball_counts = true) (hw : s'.innings.score.wickets ≥ 10) :
    s'.innings.status = .completed := by
  simp only [applyBall] at h
  split at h
  · exact absurd h (by simp)
  · split at h
    · exact absurd h (by simp)
    · rename_i striker hstr
      split at h
      · exact absurd h (by simp)
      · rename_i mid2 hmid2
        cases h
        rw [commit_status]
        refine completionStage_allout _ _ hb ?_
        rw [commit_score, completionStage_score] at hw
        exact hw

/-- C5: amended. A call on a completed innings is always rejected with state unchanged,
and any successful legal delivery that leaves wickets at 10 or more marks the innings
completed. The original cap itself fails: a non-legal custom wicket skips the completion
branch, so an 11th wicket is reachable (see the counterexample). -/
theorem c5_wicket_cap_amended :
    (∀ (req : Req) (s : EngineState), s.innings.status = .completed →
      rejected (updateInnings req s) = true) ∧
    (∀ (req : Req) (s s' : EngineState) (o : BallOutcome),
      updateInnings req s = .ok s' → resolveOutcome req = some o →
      o.ball_counts = true → s'.innings.score.wickets ≥ 10 →
      s'.innings.status = .completed) := by
  constructor
  · intro req s hc
    simp only [updateInnings, hc]
    split_ifs <;> try rfl
    split <;> rfl
  · intro req s s' o hok ho hb hw
    obtain ⟨o', ho', _, hab⟩ := updateInnings_ok_inv _ _ _ hok
    rw [ho] at ho'
    cases ho'
    exact applyBall_allout _ _ _ _ hab hb hw

theorem activeRoles_commit (mid : Mid) :
    activeRoles (commit mid) =
      (mid.innings.current_batsmen.filterMap (findStatus (applyOps mid.statuses mid.ops))).map
        (fun st => st.batting.stricking_role) := rfl

theorem activeRoles_commit_completionStage (o : BallOutcome) (mid : Mid) :
    activeRoles (commit (completionStage o mid)) = activeRoles (commit mid) := by
  rw [activeRoles_commit, activeRoles_commit, completionStage_statuses, completionStage_ops,
    completionStage_current_batsmen]

/-- C1: amended. For a legal single-run delivery with no wicket, the persisted roles swap
exactly when at least one trigger fires (odd runs or over end) and stay put when neither
fires: both bulkWrite role writes read the same stale snapshot, so the two triggers
overwrite rather than compose, and both firing nets one swap, not zero. -/
theorem c1_strike_rotation_amended (balls : Nat) (runs : Int) :
    postProj activeRoles (updateInnings (rotReq runs) (rotState balls)) =
      some (if runs % 2 ≠ 0 ∨ (balls + 1) % 6 = 0 then [some 2, some 1]
            else [some 1, some 2]) := by
  simp [updateInnings, applyBall, rotReq, rotState, baseState, baseInnings,
    resolveOutcome, ballOutcomes, invalidRoleVal, truthyId, truthyNum, bowlerPidOf, strikerOf,
    activeDocs, findStatus, postProj, batsman1, batsman2, bowler3, applyScore]
  rw [activeRoles_commit_completionStage, activeRoles_commit, rotateStage_statuses,
    rotateStage_ops, rotateStage_current_batsmen]
  rcases Int.emod_two_eq runs with h1 | h1 <;> by_cases h2 : (balls + 1) % 6 = 0 <;>
    simp [applyOps, rotateOps, flipRole, setRole, findStatus, bowlerInc, strikerInc,
      h1, h2]

theorem capCommentary_of_le (l : List CommentaryEntry) (h : l.length ≤ 20) :
    capCommentary l = l := by
  rw [capCommentary, if_neg]
  omega

/-- C9: amended. When one legal delivery both exhausts the overs limit and raises wickets
to 10, the two sequential completion ifs both run: innings 1 appends the target
announcement twice (target_runs itself is assigned the same value both times) and innings 2
appends the winner line twice, on top of the wicket ball entry. -/
theorem c9_completion_commentary_amended :
    (∀ pre : List CommentaryEntry, pre.length ≤ 17 →
      postProj (fun s => s.innings.commentary) (updateInnings c9Req (c9State pre)) =
        some (pre ++ [entryAt 12 "W." 7, entryAt 12 (target1Desc 43) 7,
          entryAt 12 (target1Desc 43) 7]) ∧
      postProj (fun s => s.matchDoc.target_runs) (updateInnings c9Req (c9State pre)) =
        some (some 43) ∧
      postProj (fun s => s.innings.status) (updateInnings c9Req (c9State pre)) =
        some .completed) ∧
    (∀ pre : List CommentaryEntry, pre.length ≤ 17 →
      postProj (fun s => s.innings.commentary) (updateInnings c9Req (c9State2 pre)) =
        some (pre ++ [entryAt 12 "W." 7, entryAt 12 (winsDesc .jsUndefined) 7,
          entryAt 12 (winsDesc .jsUndefined) 7])) := by
  constructor
  · intro pre hlen
    have hcap : ∀ a b c : CommentaryEntry,
        capCommentary (pre ++ [a, b, c]) = pre ++ [a, b, c] := by
      intro a b c
      apply capCommentary_of_le
      simp
      omega
    refine ⟨?_, ?_, ?_⟩ <;>
      simp [updateInnings, applyBall, c9Req, c9State, baseState, baseInnings, resolveOutcome,
        ballOutcomes, invalidRoleVal, truthyId, truthyNum, bowlerPidOf, strikerOf, activeDocs,
        findStatus, batsman1, batsman2, bowler3, applyScore, postProj, wicketStage,
        fielderStage, truthyStr, finishWicket, newBatsmanStatus, setRoleOpt, setOut, jsOrStr,
        completionStage, completeBody, commit, hcap, mkDescription, entryAt, target1Desc,
        applyOps, bowlerInc, strikerInc, setRole]
  · intro pre hlen
    have hcap : ∀ a b c : CommentaryEntry,
        capCommentary (pre ++ [a, b, c]) = pre ++ [a, b, c] := by
      intro a b c
      apply capCommentary_of_le
      simp
      omega
    simp [updateInnings, applyBall, c9Req, c9State2, baseState, baseInnings, resolveOutcome,
      ballOutcomes, invalidRoleVal, truthyId, truthyNum, bowlerPidOf, strikerOf, activeDocs,
      findStatus, batsman1, batsman2, bowler3, applyScore, postProj, wicketStage,
      fielderStage, truthyStr, finishWicket, newBatsmanStatus, setRoleOpt, setOut, jsOrStr,
      completionStage, completeBody, commit, hcap, mkDescription, entryAt, target1Desc,
      winsDesc, jsShowWinner, applyOps, bowlerInc, strikerInc, setRole]

theorem pidFold_nil (r : Status) : pidFold [] r = r := rfl

theorem pidFold_cons (op : StatusOp) (ops : List StatusOp) (r : Status) :
    pidFold (op :: ops) r = pidFold ops (if r.player_id = op.1 then op.2 r else r) := rfl

theorem pidFold_append (l1 l2 : List StatusOp) (r : Status) :
    pidFold (l1 ++ l2) r = pidFold l2 (pidFold l1 r) := by
  simp [pidFold, List.foldl_append]

theorem applyOps_cons (st : List Status) (op : StatusOp) (ops : List StatusOp) :
    applyOps st (op :: ops) =
      applyOps (st.map (fun r => if r.player_id = op.1 then op.2 r else r)) ops := rfl

theorem findStatus_map (st : List Status) (f : Status → Status) (pid : Nat)
    (hf : ∀ r, (f r).player_id = r.player_id) :
    findStatus (st.map f) pid = (findStatus st pid).map f := by
  induction st with
  | nil => rfl
  | cons a l ih =>
    simp only [findStatus, List.map_cons, List.find?_cons, hf a]
    cases h : a.player_id == pid
    · simpa [findStatus] using ih
    · rfl

theorem findStatus_applyOps (st : List Status) (ops : List StatusOp) (pid : Nat)
    (h : PidPreserving ops) :
    findStatus (applyOps st ops) pid = (findStatus st pid).map (pidFold ops) := by
  induction ops generalizing st with
  | nil =>
    show findStatus st pid = Option.map (pidFold []) (findStatus st pid)
    cases h0 : findStatus st pid <;> rfl
  | cons op ops ih =>
    have hf : ∀ r : Status,
        ((fun r => if r.player_id = op.1 then op.2 r else r) r).player_id = r.player_id := by
      intro r
      dsimp only
      split_ifs
      · exact h op (List.mem_cons_self _ _) r
      · rfl
    rw [applyOps_cons, ih _ (fun o ho r => h o (List.mem_cons_of_mem _ ho) r),
      findStatus_map st _ pid hf, Option.map_map]
    congr 1

theorem pidFold_player_id (ops : List StatusOp) (r : Status) (h : PidPreserving ops) :
    (pidFold ops r).player_id = r.player_id := by
  induction ops generalizing r with
  | nil => rfl
  | cons op ops ih =>
    rw [pidFold_cons]
    rw [ih _ (fun o ho s => h o (List.mem_cons_of_mem _ ho) s)]
    split_ifs
    · exact h op (List.mem_cons_self _ _) r
    · rfl

theorem pidFold_role (ops : List StatusOp) (r : Status)
    (hp : PidPreserving ops)
    (h : ∀ op ∈ ops, op.1 ≠ r.player_id ∨
      ∀ x : Status, (op.2 x).batting.stricking_role = x.batting.stricking_role) :
    (pidFold ops r).batting.stricking_role = r.batting.stricking_role := by
  induction ops generalizing r with
  | nil => rfl
  | cons op ops ih =>
    rw [pidFold_cons]
    have hpr : PidPreserving ops := fun o ho x => hp o (List.mem_cons_of_mem _ ho) x
    have hr : ∀ o ∈ ops, o.1 ≠ (if r.player_id = op.1 then op.2 r else r).player_id ∨
        ∀ x : Status, (o.2 x).batting.stricking_role = x.batting.stricking_role := by
      intro o ho
      rcases h o (List.mem_cons_of_mem _ ho) with hne | hrle
      · left
        split_ifs with hc
        · rw [hp op (List.mem_cons_self _ _) r]
          exact hne
        · exact hne
      · right
        exact hrle
    rw [ih _ hpr hr]
    rcases h op (List.mem_cons_self _ _) with hne | hrle
    · rw [if_neg (fun hc => hne hc.symm)]
    · split_ifs
      · exact hrle r
      · rfl

theorem pidFold_counters (ops : List StatusOp) (r : Status)
    (h : CountersPreserving ops) :
    (pidFold ops r).batting.runs = r.batting.runs ∧
    (pidFold ops r).batting.balls_faced = r.batting.balls_faced ∧
    (pidFold ops r).batting.fours = r.batting.fours ∧
    (pidFold ops r).batting.sixes = r.batting.sixes := by
  induction ops generalizing r with
  | nil => exact ⟨rfl, rfl, rfl, rfl⟩
  | cons op ops ih =>
    rw [pidFold_cons]
    have hrest : CountersPreserving ops := fun o ho x => h o (List.mem_cons_of_mem _ ho) x
    have hstep :
        (if r.player_id = op.1 then op.2 r else r).batting.runs = r.batting.runs ∧
        (if r.player_id = op.1 then op.2 r else r).batting.balls_faced = r.batting.balls_faced ∧
        (if r.player_id = op.1 then op.2 r else r).batting.fours = r.batting.fours ∧
        (if r.player_id = op.1 then op.2 r else r).batting.sixes = r.batting.sixes := by
      split_ifs
      · exact h op (List.mem_cons_self _ _) r
      · exact ⟨rfl, rfl, rfl, rfl⟩
    have := ih (if r.player_id = op.1 then op.2 r else r) hrest
    exact ⟨this.1.trans hstep.1, this.2.1.trans hstep.2.1,
      this.2.2.1.trans hstep.2.2.1, this.2.2.2.trans hstep.2.2.2⟩

theorem findStatus_append_left (l1 l2 : List Status) (pid : Nat) (x : Status)
    (h : findStatus l1 pid = some x) : findStatus (l1 ++ l2) pid = some x := by
  unfold findStatus at h ⊢
  rw [List.find?_append, h]
  rfl

theorem findStatus_append_right (l1 l2 : List Status) (pid : Nat)
    (h : findStatus l1 pid = none) : findStatus (l1 ++ l2) pid = findStatus l2 pid := by
  unfold findStatus at h ⊢
  rw [List.find?_append, h]
  rfl

theorem strikerOf_findStatus (s : EngineState) (k : Status) (h : strikerOf s = some k) :
    findStatus s.statuses k.player_id = some k := by
  have hmem := List.mem_of_find?_eq_some h
  simp only [activeDocs, List.mem_filterMap] at hmem
  obtain ⟨pid, _, hp⟩ := hmem
  have hpid : k.player_id = pid := by
    have := List.find?_some hp
    simpa using this
  rw [hpid]
  exact hp

theorem pidPreserving_append (l1 l2 : List StatusOp)
    (h1 : PidPreserving l1) (h2 : PidPreserving l2) : PidPreserving (l1 ++ l2) := by
  intro op hm r
  rcases List.mem_append.mp hm with hm | hm
  · exact h1 op hm r
  · exact h2 op hm r

theorem pidPreserving_ite (c : Prop) [Decidable c] (l1 l2 : List StatusOp)
    (h1 : PidPreserving l1) (h2 : PidPreserving l2) : PidPreserving (if c then l1 else l2) := by
  split_ifs
  · exact h1
  · exact h2

theorem pidPreserving_nil : PidPreserving [] := by
  intro op hm
  cases hm

theorem pidPreserving_rotateOps (b : List Status) : PidPreserving (rotateOps b) := by
  intro op hm r
  simp only [rotateOps, List.mem_map] at hm
  obtain ⟨x, _, rfl⟩ := hm
  rfl

theorem countersPreserving_rotateOps (b : List Status) : CountersPreserving (rotateOps b) := by
  intro op hm r
  simp only [rotateOps, List.mem_map] at hm
  obtain ⟨x, _, rfl⟩ := hm
  exact ⟨rfl, rfl, rfl, rfl⟩

theorem countersPreserving_ite (c : Prop) [Decidable c] (l1 l2 : List StatusOp)
    (h1 : CountersPreserving l1) (h2 : CountersPreserving l2) :
    CountersPreserving (if c then l1 else l2) := by
  split_ifs
  · exact h1
  · exact h2

theorem countersPreserving_nil : CountersPreserving [] := by
  intro op hm
  cases hm

theorem strikerInc_runs (o : BallOutcome) (r : Status) :
    (strikerInc o r).batting.runs = r.batting.runs + o.runs := rfl

theorem strikerInc_balls_faced (o : BallOutcome) (r : Status) :
    (strikerInc o r).batting.balls_faced =
      r.batting.balls_faced + (if o.ball_counts then 1 else 0) := rfl

theorem strikerInc_fours (o : BallOutcome) (r : Status) :
    (strikerInc o r).batting.fours = r.batting.fours + (if o.runs = 4 then 1 else 0) := rfl

theorem strikerInc_sixes (o : BallOutcome) (r : Status) :
    (strikerInc o r).batting.sixes = r.batting.sixes + (if o.runs = 6 then 1 else 0) := rfl

/-- C10: for every applied non-wicket outcome the persisted striker document is credited
exactly outcome.runs batting runs (never the extras), one ball faced exactly when the
delivery is legal, a four exactly when runs = 4, and a six exactly when runs = 6,
regardless of strike rotation ops applied afterwards. -/
theorem c10_striker_credit (req : Req) (s s' : EngineState) (o : BallOutcome)
    (striker : Status)
    (hok : updateInnings req s = .ok s') (ho : resolveOutcome req = some o)
    (hw : o.is_wicket = false) (hstr : strikerOf s = some striker) :
    ∃ st', findStatus s'.statuses striker.player_id = some st' ∧
      st'.batting.runs = striker.batting.runs + o.runs ∧
      st'.batting.balls_faced = striker.batting.balls_faced + (if o.ball_counts then 1 else 0) ∧
      st'.batting.fours = striker.batting.fours + (if o.runs = 4 then 1 else 0) ∧
      st'.batting.sixes = striker.batting.sixes + (if o.runs = 6 then 1 else 0) := by
  obtain ⟨o', ho', _, hab⟩ := updateInnings_ok_inv _ _ _ hok
  rw [ho] at ho'
  cases ho'
  simp only [applyBall] at hab
  split at hab
  · exact absurd hab (by simp)
  · rename_i bst hbst
    simp only [hstr, hw, Bool.false_eq_true, if_false] at hab
    cases hab
    rw [commit_statuses, completionStage_statuses, completionStage_ops, rotateStage_statuses,
      rotateStage_ops]
    have hbasePid : PidPreserving
        [(bowlerPidOf req s, bowlerInc o req.outcome), (striker.player_id, strikerInc o)] := by
      intro op hm r
      rcases List.mem_cons.mp hm with rfl | hm
      · rfl
      · rcases List.mem_cons.mp hm with rfl | hm
        · rfl
        · cases hm
    have hpid : PidPreserving
        (([(bowlerPidOf req s, bowlerInc o req.outcome), (striker.player_id, strikerInc o)] ++
            (if o.ball_counts = true ∧ ¬o.runs % 2 = 0 then rotateOps (activeDocs s) else [])) ++
          (if o.ball_counts = true ∧ (applyScore s.innings.score o req.outcome).balls % 6 = 0 then
            rotateOps (activeDocs s) else [])) := by
      refine pidPreserving_append _ _ (pidPreserving_append _ _ hbasePid ?_) ?_ <;>
        exact pidPreserving_ite _ _ _ (pidPreserving_rotateOps _) pidPreserving_nil
    rw [findStatus_applyOps _ _ _ hpid, strikerOf_findStatus s striker hstr]
    have hr1 : ∀ (cond : Prop) (inst : Decidable cond),
        (@ite _ cond inst (bowlerInc o req.outcome striker) striker).batting = striker.batting ∧
        (@ite _ cond inst (bowlerInc o req.outcome striker) striker).player_id =
          striker.player_id := by
      intro cond inst
      split_ifs
      · exact ⟨rfl, rfl⟩
      · exact ⟨rfl, rfl⟩
    have hbase : pidFold
        [(bowlerPidOf req s, bowlerInc o req.outcome), (striker.player_id, strikerInc o)] striker =
        strikerInc o (if striker.player_id = bowlerPidOf req s then
          bowlerInc o req.outcome striker else striker) := by
      rw [pidFold_cons, pidFold_cons, pidFold_nil, if_pos]
      exact (hr1 _ _).2
    have hcp : CountersPreserving
        (if o.ball_counts = true ∧ ¬o.runs % 2 = 0 then rotateOps (activeDocs s) else []) :=
      countersPreserving_ite _ _ _ (countersPreserving_rotateOps _) countersPreserving_nil
    have hcp2 : CountersPreserving
        (if o.ball_counts = true ∧ (applyScore s.innings.score o req.outcome).balls % 6 = 0 then
          rotateOps (activeDocs s) else []) :=
      countersPreserving_ite _ _ _ (countersPreserving_rotateOps _) countersPreserving_nil
    have key := fun (r : Status) => pidFold_counters _ r hcp2
    have key2 := fun (r : Status) => pidFold_counters _ r hcp
    refine ⟨_, rfl, ?_, ?_, ?_, ?_⟩
    · rw [pidFold_append, pidFold_append, hbase, (key _).1, (key2 _).1, strikerInc_runs,
        (hr1 _ _).1]
    · rw [pidFold_append, pidFold_append, hbase, (key _).2.1, (key2 _).2.1,
        strikerInc_balls_faced, (hr1 _ _).1]
    · rw [pidFold_append, pidFold_append, hbase, (key _).2.2.1, (key2 _).2.2.1, strikerInc_fours,
        (hr1 _ _).1]
    · rw [pidFold_append, pidFold_append, hbase, (key _).2.2.2, (key2 _).2.2.2, strikerInc_sixes,
        (hr1 _ _).1]

theorem fielderIncOps_roleSafe (fid : Nat) (dt : String) (pid : Nat) :
    RoleSafeFor pid (fielderIncOps fid dt) := by
  intro op hm
  refine .inr fun x => ?_
  simp only [fielderIncOps] at hm
  split_ifs at hm
  · obtain rfl := List.mem_singleton.mp hm
    rfl
  · obtain rfl := List.mem_singleton.mp hm
    rfl
  · cases hm

theorem fielderIncOps_pid (fid : Nat) (dt : String) :
    PidPreserving (fielderIncOps fid dt) := by
  intro op hm r
  simp only [fielderIncOps] at hm
  split_ifs at hm
  · obtain rfl := List.mem_singleton.mp hm
    rfl
  · obtain rfl := List.mem_singleton.mp hm
    rfl
  · cases hm

theorem fielderStage_ok_chars (req : Req) (mid mid' : Mid)
    (h : fielderStage req mid = .ok mid') :
    ∃ extra fops,
      mid'.statuses = mid.statuses ++ extra ∧
      mid'.ops = mid.ops ++ fops ∧
      PidPreserving fops ∧
      (∀ pid, RoleSafeFor pid fops) ∧
      mid'.innings = mid.innings ∧ mid'.matchDoc = mid.matchDoc ∧ mid'.now = mid.now := by
  simp only [fielderStage] at h
  split at h
  · split at h
    · split at h
      · exact absurd h (by simp)
      · cases h
        refine ⟨[newFielderStatus (req.fielder_id.getD 0) (req.dismissal_type.getD "")], [],
          rfl, by simp, pidPreserving_nil, fun pid op hm => absurd hm (by simp), rfl, rfl, rfl⟩
    · cases h
      refine ⟨[], fielderIncOps (req.fielder_id.getD 0) (req.dismissal_type.getD "") ++
        fielderIncOps (req.fielder_id.getD 0) (req.dismissal_type.getD ""), by simp, by simp,
        ?_, ?_, rfl, rfl, rfl⟩
      · exact pidPreserving_append _ _ (fielderIncOps_pid _ _) (fielderIncOps_pid _ _)
      · intro pid op hm
        rcases List.mem_append.mp hm with hm | hm
        · exact fielderIncOps_roleSafe _ _ pid op hm
        · exact fielderIncOps_roleSafe _ _ pid op hm
  · cases h
    exact ⟨[], [], by simp, by simp, pidPreserving_nil, fun pid op hm => absurd hm (by simp),
      rfl, rfl, rfl⟩

theorem setOut_pid (t : String) (b : Option Nat) (r : Status) :
    (setOut t b r).player_id = r.player_id := rfl

theorem setRoleOpt_pid (v : Option Int) (r : Status) :
    (setRoleOpt v r).player_id = r.player_id := rfl

theorem setRole_pid (v : Int) (r : Status) : (setRole v r).player_id = r.player_id := rfl

theorem pidFold_single (op : StatusOp) (r : Status) :
    pidFold [op] r = if r.player_id = op.1 then op.2 r else r := rfl

theorem bowlerInc_role (o : BallOutcome) (c : String) (r : Status) :
    (bowlerInc o c r).batting.stricking_role = r.batting.stricking_role := rfl

theorem strikerInc_role (o : BallOutcome) (r : Status) :
    (strikerInc o r).batting.stricking_role = r.batting.stricking_role := rfl

theorem setRole_role (v : Int) (r : Status) :
    (setRole v r).batting.stricking_role = some v := rfl

theorem setRoleOpt_role (v : Option Int) (r : Status) :
    (setRoleOpt v r).batting.stricking_role = v := rfl

theorem newBatsmanStatus_role (pid : Nat) (v : Option Int) :
    (newBatsmanStatus pid v).batting.stricking_role = v := rfl

theorem newBatsmanStatus_pid (pid : Nat) (v : Option Int) :
    (newBatsmanStatus pid v).player_id = pid := rfl

theorem roleSafe_nil (pid : Nat) : RoleSafeFor pid [] := by
  intro op hm
  cases hm

theorem roleSafe_append (pid : Nat) (l1 l2 : List StatusOp)
    (h1 : RoleSafeFor pid l1) (h2 : RoleSafeFor pid l2) : RoleSafeFor pid (l1 ++ l2) := by
  intro op hm
  rcases List.mem_append.mp hm with hm | hm
  · exact h1 op hm
  · exact h2 op hm

theorem roleSafe_cons (pid : Nat) (op : StatusOp) (l : List StatusOp)
    (h : op.1 ≠ pid ∨ ∀ x : Status, (op.2 x).batting.stricking_role = x.batting.stricking_role)
    (hl : RoleSafeFor pid l) : RoleSafeFor pid (op :: l) := by
  intro o hm
  rcases List.mem_cons.mp hm with rfl | hm
  · exact h
  · exact hl o hm

theorem pidFold_roleSafe_snoc (A : List StatusOp) (op : StatusOp) (r : Status)
    (hA : PidPreserving A) (hsafe : RoleSafeFor r.player_id A) :
    (pidFold (A ++ [op]) r).batting.stricking_role =
      (if r.player_id = op.1 then (op.2 (pidFold A r)).batting.stricking_role
       else r.batting.stricking_role) := by
  rw [pidFold_append, pidFold_single, pidFold_player_id _ _ hA]
  split_ifs
  · rfl
  · exact pidFold_role _ _ hA hsafe

theorem wellFormed_commit (o : BallOutcome) (mid2 : Mid) (q n : Nat) (Qr Nr : Status)
    (hcb : mid2.innings.current_batsmen = [q, n])
    (hq : findStatus mid2.statuses q = some Qr)
    (hn : findStatus mid2.statuses n = some Nr)
    (hpid : PidPreserving mid2.ops)
    (hroles : ((pidFold mid2.ops Qr).batting.stricking_role = some 1 ∧
            (pidFold mid2.ops Nr).batting.stricking_role = some 2) ∨
           ((pidFold mid2.ops Qr).batting.stricking_role = some 2 ∧
            (pidFold mid2.ops Nr).batting.stricking_role = some 1)) :
    wellFormedActiveB (commit (completionStage o mid2)) = true := by
  unfold wellFormedActiveB
  rw [commit_current_batsmen, completionStage_current_batsmen, activeRoles_commit_completionStage,
    activeRoles_commit, hcb]
  simp only [List.filterMap_cons, List.filterMap_nil, findStatus_applyOps _ _ _ hpid, hq, hn,
    Option.map_some', List.map_cons, List.map_nil, List.length_cons, List.length_nil]
  rcases hroles with ⟨h1, h2⟩ | ⟨h1, h2⟩ <;> simp [h1, h2]

set_option maxHeartbeats 1000000

/-- C4: amended. After a successful wicket on a well-formed pair of active batsmen, the
active set again holds exactly two batsmen with one striker role and one non-striker role,
provided the incoming batsman differs from both current actives. The original claim without
that proviso fails: recycling the dismissed striker persists an active out role. -/
theorem c4_wicket_roles_amended (req : Req) (s s' : EngineState) (o : BallOutcome)
    (p q n : Nat) (P Q : Status)
    (hok : updateInnings req s = .ok s') (ho : resolveOutcome req = some o)
    (hw : o.is_wicket = true)
    (hcb : s.innings.current_batsmen = [p, q])
    (hP : findStatus s.statuses p = some P) (hQ : findStatus s.statuses q = some Q)
    (hProle : P.batting.stricking_role = some 1)
    (hQrole : Q.batting.stricking_role = some 2)
    (hpq : p ≠ q) (hnext : req.next_batsman_id = some n)
    (hnp : n ≠ p) (hnq : n ≠ q)
    (hrole : req.next_batsman_strike_role = some 1 ∨ req.next_batsman_strike_role = some 2) :
    wellFormedActiveB s' = true := by
  have hP' := hP
  have hQ' := hQ
  unfold findStatus at hP' hQ'
  have hPp : P.player_id = p := by simpa using List.find?_some hP'
  have hQq : Q.player_id = q := by simpa using List.find?_some hQ'
  have hqp : q ≠ p := Ne.symm hpq
  have hbats : activeDocs s = [P, Q] := by
    simp [activeDocs, hcb, List.filterMap_cons, hP, hQ]
  have hstr : strikerOf s = some P := by
    simp [strikerOf, hbats, List.find?_cons, hProle]
  obtain ⟨o', ho', _, hab⟩ := updateInnings_ok_inv _ _ _ hok
  rw [ho] at ho'
  cases ho'
  simp only [applyBall] at hab
  split at hab
  · exact absurd hab (by simp)
  · rename_i bst hbst
    simp only [hstr, hbats, hw, if_true] at hab
    split at hab
    · exact absurd hab (by simp)
    · rename_i mid2 hmid2
      cases hab
      simp only [wicketStage] at hmid2
      split at hmid2
      · exact absurd hmid2 (by simp)
      · rename_i midC hf
        obtain ⟨extra, fops, hst, hops, hfpid, hfrole, hinn, hmd, hnow⟩ :=
          fielderStage_ok_chars _ _ _ hf
        have hstS : midC.statuses = s.statuses ++ extra := hst
        have hopsS : midC.ops =
            ([(bowlerPidOf req s, bowlerInc o req.outcome), (P.player_id, strikerInc o)] ++
              [(P.player_id, setOut (jsOrStr req.dismissal_type "Out") req.bowler_id)]) ++ fops :=
          hops
        have hcbS : midC.innings.current_batsmen = [p, q] := by
          rw [hinn]
          exact hcb
        have hpn : p ≠ n := Ne.symm hnp
        have hqn : q ≠ n := Ne.symm hnq
        have hbase_pid : PidPreserving
            ([(bowlerPidOf req s, bowlerInc o req.outcome), (P.player_id, strikerInc o)] ++
              [(P.player_id, setOut (jsOrStr req.dismissal_type "Out") req.bowler_id)]) := by
          intro op hm r
          rcases List.mem_append.mp hm with hm | hm
          · rcases List.mem_cons.mp hm with rfl | hm
            · rfl
            · rcases List.mem_cons.mp hm with rfl | hm
              · rfl
              · cases hm
          · rcases List.mem_cons.mp hm with rfl | hm
            · rfl
            · cases hm
        have hopsC_pid : PidPreserving midC.ops := by
          rw [hopsS]
          exact pidPreserving_append _ _ hbase_pid hfpid
        have hsafeQ : RoleSafeFor q midC.ops := by
          rw [hopsS]
          refine roleSafe_append _ _ _ (roleSafe_append _ _ _ ?_ ?_) (hfrole q)
          · exact roleSafe_cons _ _ _ (.inr fun x => bowlerInc_role o req.outcome x)
              (roleSafe_cons _ _ _ (.inr fun x => strikerInc_role o x) (roleSafe_nil _))
          · refine roleSafe_cons _ _ _ (.inl ?_) (roleSafe_nil _)
            rw [hPp]
            exact hpq
        have hsafeN : RoleSafeFor n midC.ops := by
          rw [hopsS]
          refine roleSafe_append _ _ _ (roleSafe_append _ _ _ ?_ ?_) (hfrole n)
          · exact roleSafe_cons _ _ _ (.inr fun x => bowlerInc_role o req.outcome x)
              (roleSafe_cons _ _ _ (.inr fun x => strikerInc_role o x) (roleSafe_nil _))
          · refine roleSafe_cons _ _ _ (.inl ?_) (roleSafe_nil _)
            rw [hPp]
            exact hpn
        have hfq : findStatus midC.statuses q = some Q := by
          rw [hstS]
          exact findStatus_append_left _ _ _ _ hQ
        have hfilterDocs : List.filter (fun b => decide (b.player_id ≠ P.player_id)) [P, Q] =
            [Q] := by
          simp [hPp, hQq, hqp]
        have hfilterIds : List.filter (fun pid => decide (pid ≠ P.player_id))
            midC.innings.current_batsmen = [q] := by
          rw [hcbS]
          simp [hPp, hqp]
        simp only [hnext] at hmid2
        split at hmid2
        · -- n in batting order
          split at hmid2
          · -- findStatus midC.statuses n = none : fresh incoming batsman
            rename_i hfind
            rcases hrole with hr | hr <;>
              simp only [finishWicket] at hmid2 <;>
              simp [hPp, hQq, hqp, hQrole, hr, newBatsmanStatus_role, newBatsmanStatus_pid]
                at hmid2 <;>
              subst hmid2
            · -- incoming role striker: non-striker keeps role 2
              refine wellFormed_commit o _ q n Q (newBatsmanStatus n (some 1)) ?_ ?_ ?_ ?_ ?_
              · rw [show ({ innings := _, matchDoc := _, statuses := _, ops := _, now := _ } :
                  Mid).innings.current_batsmen = _ from rfl]
                rw [hcbS]
                simp [hPp, hqp]
              · exact findStatus_append_left _ _ _ _ hfq
              · rw [show ({ innings := _, matchDoc := _, statuses := _, ops := _, now := _ } :
                  Mid).statuses = _ from rfl]
                rw [findStatus_append_right _ _ _ hfind]
                simp [findStatus, newBatsmanStatus_pid]
              · exact hopsC_pid
              · refine .inr ⟨?_, ?_⟩
                · rw [pidFold_role _ _ hopsC_pid (hQq ▸ hsafeQ), hQrole]
                · rw [pidFold_role _ _ hopsC_pid ((newBatsmanStatus_pid n (some 1)) ▸ hsafeN),
                    newBatsmanStatus_role]
            · -- incoming role non-striker: old non-striker becomes striker
              refine wellFormed_commit o _ q n Q (newBatsmanStatus n (some 2)) ?_ ?_ ?_ ?_ ?_
              · rw [show ({ innings := _, matchDoc := _, statuses := _, ops := _, now := _ } :
                  Mid).innings.current_batsmen = _ from rfl]
                rw [hcbS]
                simp [hPp, hqp]
              · exact findStatus_append_left _ _ _ _ hfq
              · rw [show ({ innings := _, matchDoc := _, statuses := _, ops := _, now := _ } :
                  Mid).statuses = _ from rfl]
                rw [findStatus_append_right _ _ _ hfind]
                simp [findStatus, newBatsmanStatus_pid]
              · refine pidPreserving_append _ _ hopsC_pid ?_
                intro op hm r
                rcases List.mem_cons.mp hm with rfl | hm
                · rfl
                · cases hm
              · refine .inl ⟨?_, ?_⟩
                · rw [pidFold_roleSafe_snoc _ _ _ hopsC_pid (hQq ▸ hsafeQ), if_pos hQq]
                  simp [setRole_role]
                · rw [pidFold_append, pidFold_single,
                    pidFold_player_id _ _ hopsC_pid, newBatsmanStatus_pid,
                    if_neg (by simpa using hnq),
                    pidFold_role _ _ hopsC_pid ((newBatsmanStatus_pid n (some 2)) ▸ hsafeN),
                    newBatsmanStatus_role]
          · -- findStatus midC.statuses n = some snap
            rename_i snap hfind
            have hfind' := hfind
            unfold findStatus at hfind'
            have hsnap_pid : snap.player_id = n := by simpa using List.find?_some hfind'
            have hpid_snoc : ∀ (t : Nat) (f : Status → Status),
                (∀ r : Status, (f r).player_id = r.player_id) →
                PidPreserving (midC.ops ++ [(t, f)]) := by
              intro t f hfp
              refine pidPreserving_append _ _ hopsC_pid ?_
              intro op hm r
              rcases List.mem_cons.mp hm with rfl | hm
              · exact hfp r
              · cases hm
            have hsafeQ_setN : ∀ f : Status → Status,
                RoleSafeFor q (midC.ops ++ [(n, f)]) := by
              intro f
              exact roleSafe_append _ _ _ hsafeQ
                (roleSafe_cons _ _ _ (.inl hnq) (roleSafe_nil _))
            have hpid2 : ∀ (t1 t2 : Nat) (f1 f2 : Status → Status),
                (∀ r : Status, (f1 r).player_id = r.player_id) →
                (∀ r : Status, (f2 r).player_id = r.player_id) →
                PidPreserving (midC.ops ++ [(t1, f1), (t2, f2)]) := by
              intro t1 t2 f1 f2 h1 h2
              refine pidPreserving_append _ _ hopsC_pid ?_
              intro op hm r
              rcases List.mem_cons.mp hm with rfl | hm
              · exact h1 r
              · rcases List.mem_cons.mp hm with rfl | hm
                · exact h2 r
                · cases hm
            rcases hrole with hr | hr
            · by_cases hpush : snap.batting.stricking_role = some 1
              · -- role already striker: no role op for the incoming batsman
                simp only [finishWicket] at hmid2
                simp [hPp, hQq, hqp, hQrole, hr, hpush, hsnap_pid] at hmid2
                subst hmid2
                refine wellFormed_commit o _ q n Q snap ?_ ?_ ?_ ?_ ?_ <;> dsimp only
                · rw [hcbS]
                  simp [hPp, hqp]
                · exact hfq
                · exact hfind
                · exact hopsC_pid
                · refine .inr ⟨?_, ?_⟩
                  · rw [pidFold_role _ _ hopsC_pid (hQq ▸ hsafeQ), hQrole]
                  · rw [pidFold_role _ _ hopsC_pid (hsnap_pid ▸ hsafeN), hpush]
              · -- queue a striker-role set for the incoming batsman
                simp only [finishWicket] at hmid2
                simp [hPp, hQq, hqp, hQrole, hr, hpush, hsnap_pid] at hmid2
                subst hmid2
                refine wellFormed_commit o _ q n Q snap ?_ ?_ ?_ ?_ ?_ <;> dsimp only
                · rw [hcbS]
                  simp [hPp, hqp]
                · exact hfq
                · exact hfind
                · exact hpid_snoc n (setRoleOpt (some 1)) (fun r => rfl)
                · refine .inr ⟨?_, ?_⟩
                  · rw [pidFold_role _ _ (hpid_snoc n (setRoleOpt (some 1)) (fun r => rfl))
                      (hQq ▸ hsafeQ_setN (setRoleOpt (some 1))), hQrole]
                  · rw [pidFold_roleSafe_snoc _ _ _ hopsC_pid (hsnap_pid ▸ hsafeN),
                      if_pos hsnap_pid]
                    simp [setRoleOpt_role]
            · by_cases hpush : snap.batting.stricking_role = some 2
              · -- role already non-striker: only the old non-striker is promoted
                simp only [finishWicket] at hmid2
                simp [hPp, hQq, hqp, hQrole, hr, hpush, hsnap_pid] at hmid2
                subst hmid2
                refine wellFormed_commit o _ q n Q snap ?_ ?_ ?_ ?_ ?_ <;> dsimp only
                · rw [hcbS]
                  simp [hPp, hqp]
                · exact hfq
                · exact hfind
                · exact hpid_snoc q (setRole 1) (fun r => rfl)
                · refine .inl ⟨?_, ?_⟩
                  · rw [pidFold_roleSafe_snoc _ _ _ hopsC_pid (hQq ▸ hsafeQ), if_pos hQq]
                    simp [setRole_role]
                  · rw [pidFold_append, pidFold_single,
                      pidFold_player_id _ _ hopsC_pid, hsnap_pid,
                      if_neg (by simpa using hnq),
                      pidFold_role _ _ hopsC_pid (hsnap_pid ▸ hsafeN), hpush]
              · -- both role sets queued: incoming to 2, old non-striker to 1
                simp only [finishWicket] at hmid2
                simp [hPp, hQq, hqp, hQrole, hr, hpush, hsnap_pid] at hmid2
                subst hmid2
                refine wellFormed_commit o _ q n Q snap ?_ ?_ ?_ ?_ ?_ <;> dsimp only
                · rw [hcbS]
                  simp [hPp, hqp]
                · exact hfq
                · exact hfind
                · exact hpid2 n q (setRoleOpt (some 2)) (setRole 1) (fun r => rfl) (fun r => rfl)
                · refine .inl ⟨?_, ?_⟩
                  · rw [pidFold_append, pidFold_cons,
                      pidFold_player_id _ _ hopsC_pid, hQq,
                      if_neg hqn, pidFold_single,
                      pidFold_player_id _ _ hopsC_pid, hQq,
                      if_pos rfl]
                    simp [setRole_role]
                  · rw [pidFold_append, pidFold_cons,
                      pidFold_player_id _ _ hopsC_pid, hsnap_pid,
                      if_pos rfl, pidFold_single]
                    rw [if_neg]
                    · simp [setRoleOpt_role]
                    · rw [setRoleOpt_pid, pidFold_player_id _ _ hopsC_pid, hsnap_pid]
                      exact hnq
        · exact absurd hmid2 (by simp)

theorem c3_extras_invariant_witness :
    postProj (fun st => extrasInvariantB st.innings.score.extras)
      (updateInnings wideReq (baseState 1 2)) = some true := by
  obtain ⟨s', hs⟩ : ∃ s', updateInnings wideReq (baseState 1 2) = Except.ok s' := ⟨_, rfl⟩
  have := c3_extras_invariant_amended wideReq (baseState 1 2) s' { runs := 0, extras := 1 } hs (by decide)
    (by decide) (.inl rfl)
  rw [hs]
  simp only [postProj, Option.some.injEq]
  exact this

theorem c4_wicket_roles_witness :
    postProj wellFormedActiveB (updateInnings (c4FreshReq 1) c4GoodState) = some true := by
  obtain ⟨s', hs⟩ : ∃ s', updateInnings (c4FreshReq 1) c4GoodState = Except.ok s' := ⟨_, rfl⟩
  have := c4_wicket_roles_amended (c4FreshReq 1) c4GoodState s'
    { runs := 0, ball_counts := true, is_wicket := true } 1 2 4 batsman1 batsman2 hs (by decide)
    rfl rfl (by decide) (by decide) rfl rfl (by decide) rfl (by decide) (by decide) (.inl rfl)
  rw [hs]
  simp only [postProj, Option.some.injEq]
  exact this

theorem c5_wicket_cap_witness :
    rejected (updateInnings runReq completedState) = true ∧
    postProj (fun st => st.innings.status) (updateInnings c9Req (c9State [])) =
      some .completed := by
  constructor
  · exact c5_wicket_cap_amended.1 runReq completedState rfl
  · obtain ⟨s', hs⟩ : ∃ s', updateInnings c9Req (c9State []) = Except.ok s' := ⟨_, rfl⟩
    have hwk : s'.innings.score.wickets = 10 := by
      have h10 : postProj (fun st => st.innings.score.wickets)
          (updateInnings c9Req (c9State [])) = some 10 := by decide
      rw [hs] at h10
      simpa [postProj] using h10
    have := c5_wicket_cap_amended.2 c9Req (c9State []) s'
      { runs := 0, ball_counts := true, is_wicket := true, description := some ("W.") }
      hs (by decide) rfl (by rw [hwk])
    rw [hs]
    simp only [postProj, Option.some.injEq]
    exact this

theorem c6_wicket_without_next_witness :
    updateInnings c6Req (baseState 1 2) = .error .nextBatsmanRequired ∨
    updateInnings c6Req (baseState 1 2) = .error .nextBatsmanRequiredLate := by
  exact c6_wicket_without_next_rejected c6Req (baseState 1 2) { runs := 0, ball_counts := true, is_wicket := true }
    bowler3 batsman1 (by decide) rfl rfl rfl (by decide) rfl (by decide) (by decide) rfl

theorem c9_completion_commentary_witness :
    postProj (fun st => st.innings.commentary) (updateInnings c9Req (c9State [])) =
      some ([] ++ [entryAt 12 ("W.") 7, entryAt 12 (target1Desc 43) 7,
        entryAt 12 (target1Desc 43) 7]) ∧
    postProj (fun st => st.innings.commentary) (updateInnings c9Req (c9State2 [])) =
      some ([] ++ [entryAt 12 ("W.") 7, entryAt 12 (winsDesc .jsUndefined) 7,
        entryAt 12 (winsDesc .jsUndefined) 7]) := by
  exact ⟨(c9_completion_commentary_amended.1 [] (by decide)).1, c9_completion_commentary_amended.2 [] (by decide)⟩

theorem c10_striker_credit_witness :
    postProj (fun st => (findStatus st.statuses 1).map (fun r => r.batting.runs))
      (updateInnings runReq (baseState 1 2)) = some (some 1) := by
  obtain ⟨s', hs⟩ : ∃ s', updateInnings runReq (baseState 1 2) = Except.ok s' := ⟨_, rfl⟩
  obtain ⟨st', hfind, h1, _h2, _h3, _h4⟩ := c10_striker_credit runReq (baseState 1 2) s'
    runOutcome batsman1 hs (by decide) rfl (by decide)
  rw [hs]
  simp only [postProj, Option.some.injEq]
  rw [show (1 : Nat) = batsman1.player_id from rfl, hfind]
  simp [h1, runOutcome, batsman1]

/-- C1: counterexample. With five balls bowled and actives P1 (striker) and P2
(non-striker), a legal single both ends the over (6 mod 6 = 0) and has odd runs; the claim
says the two swap rules compose to a net no-op, yet after the call the roles are swapped. -/
theorem c1_both_triggers_counterexample :
    activeRoles c1PreState = [some 1, some 2] ∧
    postProj (fun s => s.innings.score.balls % 6) (updateInnings c1Req c1PreState) = some 0 ∧
    postProj activeRoles (updateInnings c1Req c1PreState) = some [some 2, some 1] := by
  decide

/-- C3: counterexample. A custom outcome with code penalty and one extra run is applied
successfully, adds 1 to extras.total but to no named bucket, and breaks the invariant
total = wides + noBalls + byes + legByes + penalty. -/
theorem c3_custom_extras_counterexample :
    extrasInvariantB (baseState 1 100).innings.score.extras = true ∧
    postProj (fun s => extrasInvariantB s.innings.score.extras)
      (updateInnings c3Req (baseState 1 100)) = some false := by
  decide

/-- C4: counterexample. A wicket that recycles the dismissed striker as the incoming
batsman is applied successfully, yet the final insert-op overwrites the dismissal with a
stale snapshot read before the out write, leaving an active batsman whose persisted role is
the out marker (encoded 0) instead of one striker and one non-striker. -/
theorem c4_recycled_striker_counterexample :
    wellFormedActiveB (baseState 1 100) = true ∧
    postProj wellFormedActiveB (updateInnings c4Req (baseState 1 100)) = some false ∧
    postProj activeRoles (updateInnings c4Req (baseState 1 100)) = some [some 2, some 0] := by
  decide

/-- C5: counterexample. Ten non-legal custom wickets leave the innings at 10 wickets and
still ongoing, because the all-out completion check sits under the legal-delivery branch;
an eleventh such wicket is then accepted, reaching wickets = 11. -/
theorem c5_eleven_wickets_counterexample :
    postProj (fun s => s.innings.score.wickets) (applySeq (c5Reqs 10) (baseState 1 100)) = some 10 ∧
    postProj (fun s => s.innings.status) (applySeq (c5Reqs 10) (baseState 1 100)) = some .ongoing ∧
    postProj (fun s => s.innings.score.wickets) (applySeq (c5Reqs 11) (baseState 1 100)) = some 11 := by
  decide

/-- C7: scenario A. From a fresh innings 1 with overs limit 2, eleven single-run legal
deliveries leave the innings ongoing; the twelfth brings balls = 12 and runs = 12,
completes the innings, and sets the match target_runs to 13 in the same call. -/
theorem c7_scenario_a :
    postProj (fun s => s.innings.score.balls) (applySeq (List.replicate 12 runReq) (baseState 1 2)) = some 12 ∧
    postProj (fun s => s.innings.score.runs) (applySeq (List.replicate 12 runReq) (baseState 1 2)) = some 12 ∧
    postProj (fun s => s.innings.status) (applySeq (List.replicate 11 runReq) (baseState 1 2)) = some .ongoing ∧
    postProj (fun s => s.innings.status) (applySeq (List.replicate 12 runReq) (baseState 1 2)) = some .completed ∧
    postProj (fun s => s.matchDoc.target_runs) (applySeq (List.replicate 12 runReq) (baseState 1 2)) = some (some 13) := by
  decide

/-- C8: in innings 2 at 115/3 chasing 120, a legal six completes the innings mid-over
(balls = 14) and sets match status and endTime, but the winner is assigned from
match.batting_team_id, a path absent from the Match schema, so it persists as undefined
rather than the batting team (id 70). -/
theorem c8_winner_undefined :
    postProj (fun s => s.innings.status) (updateInnings c8Req c8State) = some .completed ∧
    postProj (fun s => s.innings.score.balls) (updateInnings c8Req c8State) = some 14 ∧
    postProj (fun s => s.matchDoc.status) (updateInnings c8Req c8State) = some .completed ∧
    postProj (fun s => s.matchDoc.endTime) (updateInnings c8Req c8State) = some (some 5) ∧
    postProj (fun s => s.matchDoc.winner) (updateInnings c8Req c8State) = some .jsUndefined ∧
    c8State.innings.batting_team_id = 70 := by
  decide

/-- C9: counterexample. A legal wicket delivery that simultaneously exhausts the overs
limit and raises wickets to 10 appends the innings-1 target announcement twice (and the
innings-2 winner line twice), double-triggering the completion narrative. -/
theorem c9_double_commentary_counterexample :
    postProj (fun s => countDesc s.innings.commentary (target1Desc 43)) (updateInnings c9Req (c9State [])) = some 2 ∧
    postProj (fun s => s.matchDoc.target_runs) (updateInnings c9Req (c9State [])) = some (some 43) ∧
    postProj (fun s => countDesc s.innings.commentary (winsDesc .jsUndefined)) (updateInnings c9Req (c9State2 [])) = some 2 := by
  decide

end Acethletics
